import Mathlib

/-!
Shallow embedding of the dirmngr Assuan server front-end
(`src/legacy/gnupg/dirmngr/server.cpp`).

Strings are modelled as lists of byte values (`List Nat`, each element the
value of one `char`, never 0 since C strings terminate at the first NUL).
Error codes (`gpg_error_t`) are modelled as an inductive type whose
constructors correspond to the distinct `GPG_ERR_*` constants the file uses;
`noError` is the zero/success value.  External collaborators (the CRL cache,
the OCSP checker, libksba certificate construction, the Assuan inquiry
transport, URI parsing) are modelled as oracle fields of environment
structures: each command handler becomes a pure function of its environment
that returns the error outcome together with a trace of the observable
events (inquiries issued, cache lookups performed, external calls made).
-/

namespace Dirmngr

/-- Error outcomes.  Each constructor models one distinct `gpg_error_t`
value used by `server.cpp`; `noError` is 0.  `transport n` stands for an
arbitrary error code returned by the Assuan transport layer. -/
inductive GpgErr where
  | noError
  | assParameter
  | missingCert
  | noData
  | invName
  | notTrusted
  | certRevoked
  | noCrlKnown
  | notSupported
  | notImplemented
  | unknownOption
  | invArg
  | badUri
  | sysError
  | transport (n : Nat)
  deriving DecidableEq, Repr

/-- The four return codes of the external `crl_cache_isvalid`
(`CRL_CACHE_VALID`, `CRL_CACHE_INVALID`, `CRL_CACHE_DONTKNOW`,
`CRL_CACHE_CANTUSE`).  The `default:` branch of the switch calls
`log_fatal` (process termination) and is therefore outside the model. -/
inductive CrlAns where
  | valid
  | invalid
  | dontknow
  | cantuse
  deriving DecidableEq, Repr

/-- Inquiry keywords the server sends to the peer. -/
inductive Keyword where
  | sendcert
  | targetcert
  | certlist
  | keyblock
  | keyblockInfo
  deriving DecidableEq, Repr

/-- Observable events of a command handler run. -/
inductive Event where
  | inquire (k : Keyword)
  | cacheLookup (ans : CrlAns)
  | ocspCheck
  | ksPut
  deriving DecidableEq, Repr

/-- `hexdigitp` from gnupg's common code: ASCII `0`-`9`, `a`-`f`, `A`-`F`. -/
def hexdigitp (c : Nat) : Bool :=
  (48 ≤ c && c ≤ 57) || (97 ≤ c && c ≤ 102) || (65 ≤ c && c ≤ 70)

/-- `xtoi_1` from gnupg's common code: value of one hex digit character
(the C macro `(*p <= '9' ? *p - '0' : *p <= 'F' ? *p - 'A' + 10 : *p - 'a' + 10)`,
computed in `int`). -/
def xtoi_1 (c : Nat) : Int :=
  if c ≤ 57 then (c : Int) - 48
  else if c ≤ 70 then (c : Int) - 55
  else (c : Int) - 87

/-- `xtoi_2`: value of a two-hex-digit pair, truncated to a byte the way a
store into a `char` truncates (low 8 bits). -/
def xtoi_2 (a b : Nat) : Nat :=
  ((xtoi_1 a * 16 + xtoi_1 b) % 256).toNat

/-- `spacep` from gnupg's common code: blank or tab. -/
def spacep (c : Nat) : Bool := c = 32 || c = 9

/-- `strcpy_escaped_plus` (server.cpp:122): copy the `%`- and `+`-escaped
string, decoding `%XY` (with both following characters present, i.e. not
cut off by the terminating NUL) to one byte via `xtoi_2`, `+` to a blank,
and everything else — including a `%` with fewer than two following
characters — literally. -/
def strcpy_escaped_plus : List Nat → List Nat
  | [] => []
  | 37 :: a :: b :: rest => xtoi_2 a b :: strcpy_escaped_plus rest
  | 43 :: rest => 32 :: strcpy_escaped_plus rest
  | c :: rest => c :: strcpy_escaped_plus rest

/-- Loop body of `get_fingerprint_from_line` (server.cpp:465): scan until
the terminating NUL or the first blank; a pair of hex digits stores one
byte (rejecting the 21st), a `:` is skipped, anything else fails.  `acc`
holds the bytes decoded so far (`fpr[0..i-1]`). -/
def fingerprintLoop : List Nat → List Nat → Option (List Nat)
  | [], acc => if acc.length = 20 then some acc else none
  | [c], acc =>
    if c = 32 then (if acc.length = 20 then some acc else none)
    else if c = 58 then (if acc.length = 20 then some acc else none)
    -- the character after `c` is the terminating NUL, so the pair test
    -- `hexdigitp(s) && hexdigitp(s+1)` fails and only `:` survives
    else none
  | c :: d :: rest2, acc =>
    if c = 32 then (if acc.length = 20 then some acc else none)
    else if hexdigitp c && hexdigitp d then
      if acc.length ≥ 20 then none
      else fingerprintLoop rest2 (acc ++ [xtoi_2 c d])
    else if c = 58 then fingerprintLoop (d :: rest2) acc
    else none

/-- `get_fingerprint_from_line` (server.cpp:465): decode an optional
20-byte SHA-1 fingerprint from the start of the line; `none` models the
NULL return. -/
def get_fingerprint_from_line (line : List Nat) : Option (List Nat) :=
  fingerprintLoop line []

/-- The syntactic routing decision of `cmd_isvalid` (server.cpp:396-407):
a `.` anywhere in the line splits it into issuer hash and serial number
(CRL path); otherwise the line is truncated at the first blank and must be
exactly 40 characters long (OCSP path), else the command fails with the
parameter error "serialno missing in cert ID". -/
inductive Route where
  | crl (issuerhash serialno : List Nat)
  | ocsp (issuerhash : List Nat)
  | paramError
  deriving DecidableEq, Repr

/-- Routing part of `cmd_isvalid`: `strchr(issuerhash, '.')` finds the first
`.`; if present the line is split there; otherwise it is cut at the first
blank and its length compared against 40. -/
def isvalidRoute (line : List Nat) : Route :=
  if 46 ∈ line then
    Route.crl (line.takeWhile (· ≠ 46)) ((line.dropWhile (· ≠ 46)).tail)
  else
    let issuerhash := line.takeWhile (· ≠ 32)
    if issuerhash.length = 40 then Route.ocsp issuerhash else Route.paramError

/-- Environment of `cmd_isvalid`: the oracles standing for the external
collaborators.  `cacheAns k` is the answer of the `k`-th call to
`crl_cache_isvalid` (the cache may answer differently after a reload);
`sendCert` is the outcome of the `SENDCERT` inquiry (transport error or
payload bytes); `certInit v` is the outcome of
`ksba_cert_new`/`ksba_cert_init_from_mem` on payload `v`; `reloadCrl` is
the outcome of `crl_cache_reload_crl`; `allowOcsp` is `opt.allow_ocsp` and
`ocspErr` the outcome of `ocsp_isvalid`. -/
structure IsvalidEnv where
  allowOcsp : Bool
  ocspErr : GpgErr
  cacheAns : Nat → CrlAns
  sendCert : Except GpgErr (List Nat)
  certInit : List Nat → GpgErr
  reloadCrl : GpgErr

/-- `inquire_cert_and_load_crl` (server.cpp:294): inquire `SENDCERT`; a
transport failure propagates; an empty payload yields
`GPG_ERR_MISSING_CERT`; otherwise construct the certificate (propagating a
construction failure) and reload/insert a CRL for it. -/
def inquire_cert_and_load_crl (env : IsvalidEnv) : GpgErr × List Event :=
  match env.sendCert with
  | .error e => (e, [Event.inquire Keyword.sendcert])
  | .ok v =>
    if v.length = 0 then (GpgErr.missingCert, [Event.inquire Keyword.sendcert])
    else if env.certInit v = GpgErr.noError then
      (env.reloadCrl, [Event.inquire Keyword.sendcert])
    else (env.certInit v, [Event.inquire Keyword.sendcert])

/-- The `again:` loop of `cmd_isvalid`'s CRL path (server.cpp:409-447),
with the `did_inquire` flag rendered as the number of inquiries still
allowed (`did_inquire = 0` in the source corresponds to
`inquiresLeft = 1`).  `k` numbers the `crl_cache_isvalid` calls. -/
def isvalidCrlLoop (env : IsvalidEnv) : Nat → Nat → GpgErr × List Event
  | inquiresLeft, k =>
    match env.cacheAns k, inquiresLeft with
    | CrlAns.valid, _ => (GpgErr.noError, [Event.cacheLookup CrlAns.valid])
    | CrlAns.invalid, _ => (GpgErr.certRevoked, [Event.cacheLookup CrlAns.invalid])
    | CrlAns.cantuse, _ => (GpgErr.noCrlKnown, [Event.cacheLookup CrlAns.cantuse])
    | CrlAns.dontknow, 0 => (GpgErr.noCrlKnown, [Event.cacheLookup CrlAns.dontknow])
    | CrlAns.dontknow, n + 1 =>
      if (inquire_cert_and_load_crl env).1 = GpgErr.noError then
        ((isvalidCrlLoop env n (k + 1)).1,
          Event.cacheLookup CrlAns.dontknow :: (inquire_cert_and_load_crl env).2
            ++ (isvalidCrlLoop env n (k + 1)).2)
      else ((inquire_cert_and_load_crl env).1,
        Event.cacheLookup CrlAns.dontknow :: (inquire_cert_and_load_crl env).2)

/-- `cmd_isvalid` (server.cpp:376-451) after option parsing: `onlyOcsp`
is the presence of `--only-ocsp`; `fdr` that of
`--force-default-responder`; `line` the option-stripped argument.  OCSP
mode ignores the parsed issuer hash and asks about the current target
certificate; `--only-ocsp` on the CRL path short-circuits to
`GPG_ERR_NO_CRL_KNOWN`; otherwise the CRL-cache loop runs with one
inquiry allowed. -/
def cmd_isvalid (env : IsvalidEnv) (onlyOcsp fdr : Bool) (line : List Nat) :
    GpgErr × List Event :=
  match isvalidRoute line with
  | Route.paramError => (GpgErr.assParameter, [])
  | Route.ocsp _ =>
    if !env.allowOcsp then (GpgErr.notSupported, [])
    else (env.ocspErr, [Event.ocspCheck])
  | Route.crl _ _ =>
    if onlyOcsp then (GpgErr.noCrlKnown, [])
    else isvalidCrlLoop env 1 0

/-- `get_istrusted_from_client`'s decision on a successfully transported
`ISTRUSTED` response body (server.cpp:282): the body must be exactly `"1"`
or `'1'` followed by a blank or tab (`spacep`); everything else yields
`GPG_ERR_NOT_TRUSTED`. -/
def istrustedDecide : List Nat → GpgErr
  | [49] => GpgErr.noError
  | 49 :: d :: _ => if spacep d then GpgErr.noError else GpgErr.notTrusted
  | _ => GpgErr.notTrusted

/-- `get_istrusted_from_client` (server.cpp:264): issue the `ISTRUSTED`
inquiry; a transport failure propagates, otherwise the response body is
judged by `istrustedDecide`. -/
def get_istrusted_from_client (resp : Except GpgErr (List Nat)) : GpgErr :=
  match resp with
  | .error e => e
  | .ok v => istrustedDecide v

/-- Environment for the commands resolving a certificate by fingerprint or
`TARGETCERT`/`CERTLIST` inquiry (`CHECKCRL`, `CHECKOCSP`, `CACHECERT`,
`VALIDATE`).  Certificates are identified by their DER bytes.
`certByFpr` is `get_cert_byfpr`; `inquireCert k` the outcome of the
inquiry for keyword `k`; `certInit` as in `IsvalidEnv`;
`crlCertIsvalid j` the outcome of the `j`-th `crl_cache_cert_isvalid`
call; `reloadCrl` the outcome of `crl_cache_reload_crl`; `cacheCert` the
outcome of `cache_cert`; `allowOcsp`/`ocspErr` as in `IsvalidEnv`;
`readCertlist` the outcome of `read_certlist_from_stream` (a list of
certificates or an error); `validateChain` the outcome of
`validate_cert_chain`. -/
structure CertCmdEnv where
  certByFpr : List Nat → Option (List Nat)
  inquireCert : Keyword → Except GpgErr (List Nat)
  certInit : List Nat → GpgErr
  crlCertIsvalid : Nat → GpgErr
  reloadCrl : GpgErr
  cacheCert : GpgErr
  allowOcsp : Bool
  ocspErr : GpgErr
  readCertlist : List Nat → Except GpgErr (List (List Nat))
  validateChain : GpgErr

/-- Certificate resolution common to `CHECKCRL` (server.cpp:508-532) and
`CHECKOCSP` (server.cpp:584-608): try the fingerprint from the line
against the certificate cache; on a miss inquire `TARGETCERT`,
propagating a transport failure, mapping an empty payload to
`GPG_ERR_MISSING_CERT` and propagating a certificate-construction
failure. -/
def resolveTargetCert (env : CertCmdEnv) (line : List Nat) :
    Except GpgErr (List Nat) × List Event :=
  let cached :=
    match get_fingerprint_from_line line with
    | some fpr => env.certByFpr fpr
    | none => none
  match cached with
  | some cert => (.ok cert, [])
  | none =>
    match env.inquireCert Keyword.targetcert with
    | .error e => (.error e, [Event.inquire Keyword.targetcert])
    | .ok v =>
      if v.length = 0 then
        (.error GpgErr.missingCert, [Event.inquire Keyword.targetcert])
      else if env.certInit v = GpgErr.noError then
        (.ok v, [Event.inquire Keyword.targetcert])
      else (.error (env.certInit v), [Event.inquire Keyword.targetcert])

/-- `cmd_checkcrl` (server.cpp:502-545): resolve the certificate, then ask
the CRL cache; on `GPG_ERR_NO_CRL_KNOWN` reload the CRL and, if the
reload succeeded, ask the cache once more (with the force-refresh flag
cleared). -/
def cmd_checkcrl (env : CertCmdEnv) (line : List Nat) : GpgErr × List Event :=
  match resolveTargetCert env line with
  | (.error e, evs) => (e, evs)
  | (.ok _, evs) =>
    let e1 := env.crlCertIsvalid 0
    if e1 = GpgErr.noCrlKnown then
      let er := env.reloadCrl
      if er = GpgErr.noError then (env.crlCertIsvalid 1, evs) else (er, evs)
    else (e1, evs)

/-- `cmd_checkocsp` (server.cpp:574-620) after option parsing: resolve the
certificate, then delegate to the OCSP checker unless OCSP is
administratively disabled. -/
def cmd_checkocsp (env : CertCmdEnv) (fdr : Bool) (line : List Nat) :
    GpgErr × List Event :=
  match resolveTargetCert env line with
  | (.error e, evs) => (e, evs)
  | (.ok _, evs) =>
    if !env.allowOcsp then (GpgErr.notSupported, evs)
    else (env.ocspErr, evs ++ [Event.ocspCheck])

/-- `cmd_cachecert` (server.cpp:859-889): inquire `TARGETCERT`
unconditionally; a transport failure propagates, an empty payload yields
`GPG_ERR_MISSING_CERT`, a construction failure propagates, otherwise the
certificate is put into the cache. -/
def cmd_cachecert (env : CertCmdEnv) : GpgErr × List Event :=
  match env.inquireCert Keyword.targetcert with
  | .error e => (e, [Event.inquire Keyword.targetcert])
  | .ok v =>
    if v.length = 0 then
      (GpgErr.missingCert, [Event.inquire Keyword.targetcert])
    else if env.certInit v = GpgErr.noError then
      (env.cacheCert, [Event.inquire Keyword.targetcert])
    else (env.certInit v, [Event.inquire Keyword.targetcert])

/-- `cmd_validate` (server.cpp:914-1000) after option parsing: inquire
`CERTLIST` in `--tls` mode, else `TARGETCERT`; a transport failure
propagates; an empty payload yields `GPG_ERR_MISSING_CERT`; in tls mode
an empty parsed certificate list also yields `GPG_ERR_MISSING_CERT`;
finally the chain is validated. -/
def cmd_validate (env : CertCmdEnv) (systrust tls noCrl : Bool) :
    GpgErr × List Event :=
  let kw := if tls then Keyword.certlist else Keyword.targetcert
  match env.inquireCert kw with
  | .error e => (e, [Event.inquire kw])
  | .ok v =>
    if v.length = 0 then (GpgErr.missingCert, [Event.inquire kw])
    else if tls then
      match env.readCertlist v with
      | .error e => (e, [Event.inquire kw])
      | .ok certs =>
        if certs.isEmpty then (GpgErr.missingCert, [Event.inquire kw])
        else (env.validateChain, [Event.inquire kw])
    else if env.certInit v = GpgErr.noError then
      (env.validateChain, [Event.inquire kw])
    else (env.certInit v, [Event.inquire kw])

/-- Environment of the keyserver commands.  `parseUri` models the external
`http_parse_uri` (success or failure on a given URI string); `globalKs`
is the process-wide `opt.keyserver` configuration, front-to-back in
configuration order; `keyblock`/`keyblockInfo` are the outcomes of the
`KS_PUT` inquiries and `ksActionPut` that of `ks_action_put`. -/
structure KsEnv where
  parseUri : List Nat → Bool
  globalKs : List (List Nat)
  keyblock : Except GpgErr (List Nat)
  keyblockInfo : Except GpgErr (List Nat)
  ksActionPut : GpgErr

/-- Modelled from the spec: `DIRMNGR_DEFAULT_KEYSERVER` is a hardcoded
constant of a header outside the given source ("falling back to one
hardcoded default URI"); its actual text is irrelevant to the claims, only
its identity as the single default entry matters. -/
def DIRMNGR_DEFAULT_KEYSERVER : List Nat := [104, 107, 112, 115]

/-- `make_keyserver_item` (server.cpp:1004): parse the URI; on failure
free the item and return the error (modelled from the spec as the
parameter-class `GPG_ERR_BAD_URI`, since `http_parse_uri` is an external
collaborator), on success return the item carrying a copy of the URI. -/
def make_keyserver_item (env : KsEnv) (uri : List Nat) :
    Except GpgErr (List Nat) :=
  if env.parseUri uri then .ok uri else .error GpgErr.badUri

/-- The seeding loop of `ensure_keyserver` (server.cpp:1041-1046): walk
the global configuration front-to-back; each successfully made item is
pushed to the *head* of the session registry; a failure breaks the loop,
keeping the items pushed so far, and returns the error. -/
def seedLoop (env : KsEnv) : List (List Nat) → List (List Nat) →
    GpgErr × List (List Nat)
  | [], acc => (GpgErr.noError, acc)
  | ks :: rest, acc =>
    match make_keyserver_item env ks with
    | .error e => (e, acc)
    | .ok item => seedLoop env rest (item :: acc)

/-- `ensure_keyserver` (server.cpp:1029-1049): a non-empty session
registry is returned untouched; with an empty global configuration the
single default URI is made (an empty registry and the error on failure);
otherwise the global configuration is folded in by `seedLoop`.  The pair
is (returned error, resulting session registry front-to-back). -/
def ensure_keyserver (env : KsEnv) (sess : List (List Nat)) :
    GpgErr × List (List Nat) :=
  if sess ≠ [] then (GpgErr.noError, sess)
  else if env.globalKs = [] then
    match make_keyserver_item env DIRMNGR_DEFAULT_KEYSERVER with
    | .ok item => (GpgErr.noError, [item])
    | .error e => (e, [])
  else seedLoop env env.globalKs sess

/-- `cmd_keyserver` (server.cpp:1065-1110) after option parsing, with the
help path omitted (`helpFlag` false): `addFlag` is the presence of a
non-empty URI argument.  An add first makes the item — a failure leaves
the command *before* any clear happens; then a clear releases the whole
registry; then the made item is pushed to the head.  With neither flag
nor argument the registry is lazily seeded and listed.  The pair is
(returned error, resulting session registry). -/
def cmd_keyserver (env : KsEnv) (clearFlag : Bool) (line : List Nat)
    (sess : List (List Nat)) : GpgErr × List (List Nat) :=
  let addFlag := line ≠ []
  if addFlag then
    match make_keyserver_item env line with
    | .error e => (e, sess)
    | .ok item =>
      let sess1 := if clearFlag then [] else sess
      (GpgErr.noError, item :: sess1)
  else if clearFlag then (GpgErr.noError, [])
  else
    let r := ensure_keyserver env sess
    if r.1 = GpgErr.noError then (GpgErr.noError, r.2) else (r.1, r.2)

/-- `cmd_ks_put` (server.cpp:1237-1281): ensure a keyserver, inquire
`KEYBLOCK` (propagating a transport failure, mapping an empty payload to
`GPG_ERR_MISSING_CERT` before anything else happens), then inquire
`KEYBLOCK_INFO` (propagating a transport failure), then send the key. -/
def cmd_ks_put (env : KsEnv) (sess : List (List Nat)) : GpgErr × List Event :=
  let ensured := ensure_keyserver env sess
  if ensured.1 ≠ GpgErr.noError then (ensured.1, [])
  else
    match env.keyblock with
    | .error e => (e, [Event.inquire Keyword.keyblock])
    | .ok v =>
      if v.length = 0 then
        (GpgErr.missingCert, [Event.inquire Keyword.keyblock])
      else
        match env.keyblockInfo with
        | .error e =>
          (e, [Event.inquire Keyword.keyblock, Event.inquire Keyword.keyblockInfo])
        | .ok _ =>
          (env.ksActionPut,
            [Event.inquire Keyword.keyblock, Event.inquire Keyword.keyblockInfo,
              Event.ksPut])

/-! ### Hex rendering helpers used to state the fingerprint claim -/

/-- Upper hex digit character of a byte. -/
def byteHexHi (b : Nat) : Nat :=
  if b / 16 < 10 then 48 + b / 16 else 55 + b / 16

/-- Lower hex digit character of a byte. -/
def byteHexLo (b : Nat) : Nat :=
  if b % 16 < 10 then 48 + b % 16 else 55 + b % 16

/-- Unseparated upper-case hex rendering of a byte string. -/
def renderHex : List Nat → List Nat
  | [] => []
  | b :: r => byteHexHi b :: byteHexLo b :: renderHex r

/-- Colon-separated upper-case hex rendering of a byte string (the usual
cut-and-paste fingerprint rendering `AA:BB:...`). -/
def renderHexColon : List Nat → List Nat
  | [] => []
  | [b] => [byteHexHi b, byteHexLo b]
  | b :: r => byteHexHi b :: byteHexLo b :: 58 :: renderHexColon r

theorem hexdigitp_byteHexHi {b : Nat} (hb : b < 256) :
    hexdigitp (byteHexHi b) = true := by
  simp only [hexdigitp, byteHexHi]
  split <;> simp <;> omega

theorem hexdigitp_byteHexLo (b : Nat) : hexdigitp (byteHexLo b) = true := by
  simp only [hexdigitp, byteHexLo]
  have : b % 16 < 16 := Nat.mod_lt _ (by omega)
  split <;> simp <;> omega

theorem hexdigit_ne_space {c : Nat} (hc : hexdigitp c = true) : c ≠ 32 := by
  simp only [hexdigitp, Bool.or_eq_true, Bool.and_eq_true, decide_eq_true_eq] at hc
  omega

theorem hexdigit_ne_colon {c : Nat} (hc : hexdigitp c = true) : c ≠ 58 := by
  simp only [hexdigitp, Bool.or_eq_true, Bool.and_eq_true, decide_eq_true_eq] at hc
  omega

theorem xtoi_2_render {b : Nat} (hb : b < 256) :
    xtoi_2 (byteHexHi b) (byteHexLo b) = b := by
  simp only [xtoi_2, xtoi_1, byteHexHi, byteHexLo]
  have h1 : b / 16 < 16 := by omega
  have h2 : b % 16 < 16 := Nat.mod_lt _ (by omega)
  have h3 : b = 16 * (b / 16) + b % 16 := (Nat.div_add_mod b 16).symm ▸ by omega
  split <;> split <;> split <;> split <;> push_cast <;> omega

theorem fingerprintLoop_renderHex (bs : List Nat) (tail : List Nat)
    (htail : tail = [] ∨ ∃ r, tail = 32 :: r) :
    ∀ acc, (∀ b ∈ bs, b < 256) →
    fingerprintLoop (renderHex bs ++ tail) acc =
      if acc.length + bs.length = 20 then some (acc ++ bs) else none := by
  induction bs with
  | nil =>
    intro acc _
    rcases htail with h | ⟨r, h⟩ <;> subst h
    · simp [renderHex, fingerprintLoop]
    · cases r <;> simp [renderHex, fingerprintLoop]
  | cons b rest ih =>
    intro acc hbs
    have hb : b < 256 := hbs b (by simp)
    have hhi : hexdigitp (byteHexHi b) = true := hexdigitp_byteHexHi hb
    have hlo : hexdigitp (byteHexLo b) = true := hexdigitp_byteHexLo b
    have hne32 : byteHexHi b ≠ 32 := hexdigit_ne_space hhi
    simp only [renderHex, List.cons_append]
    rw [fingerprintLoop]
    simp only [hne32, if_false, hhi, hlo, Bool.and_self, if_true]
    by_cases hlen : acc.length ≥ 20
    · rw [if_pos hlen, if_neg (by simp; omega)]
    · rw [if_neg hlen, xtoi_2_render hb,
        ih (acc ++ [b]) (fun x hx => hbs x (by simp [hx]))]
      by_cases hcond : acc.length + rest.length + 1 = 20
      · rw [if_pos (by simp; omega), if_pos (by simp; omega)]
        simp
      · rw [if_neg (by simp; omega), if_neg (by simp; omega)]

theorem fingerprintLoop_renderHexColon (bs : List Nat) :
    ∀ acc, (∀ b ∈ bs, b < 256) →
    fingerprintLoop (renderHexColon bs) acc =
      if acc.length + bs.length = 20 then some (acc ++ bs) else none := by
  induction bs with
  | nil => intro acc _; simp [renderHexColon, fingerprintLoop]
  | cons b rest ih =>
    intro acc hbs
    have hb : b < 256 := hbs b (by simp)
    have hhi : hexdigitp (byteHexHi b) = true := hexdigitp_byteHexHi hb
    have hlo : hexdigitp (byteHexLo b) = true := hexdigitp_byteHexLo b
    have hne32 : byteHexHi b ≠ 32 := hexdigit_ne_space hhi
    cases rest with
    | nil =>
      show fingerprintLoop (byteHexHi b :: byteHexLo b :: []) acc = _
      rw [fingerprintLoop]
      simp only [hne32, if_false, hhi, hlo, Bool.and_self, if_true]
      by_cases hlen : acc.length ≥ 20
      · rw [if_pos hlen, if_neg (by simp; omega)]
      · rw [if_neg hlen, xtoi_2_render hb, fingerprintLoop]
        by_cases hcond : acc.length + 1 = 20
        · rw [if_pos (by simp; omega), if_pos (by simp; omega)]
        · rw [if_neg (by simp; omega), if_neg (by simp; omega)]
    | cons c r2 =>
      obtain ⟨t, ht⟩ : ∃ t, renderHexColon (c :: r2) =
          byteHexHi c :: byteHexLo c :: t := by
        cases r2 <;> exact ⟨_, rfl⟩
      show fingerprintLoop
        (byteHexHi b :: byteHexLo b :: 58 :: renderHexColon (c :: r2)) acc = _
      rw [fingerprintLoop]
      simp only [hne32, if_false, hhi, hlo, Bool.and_self, if_true]
      by_cases hlen : acc.length ≥ 20
      · rw [if_pos hlen, if_neg (by simp; omega)]
      · rw [if_neg hlen, xtoi_2_render hb, ht, fingerprintLoop]
        have h58 : hexdigitp 58 = false := by decide
        rw [if_neg (show ¬(58 : Nat) = 32 by decide),
          if_neg (show ¬((hexdigitp 58 && hexdigitp (byteHexHi c)) = true) by
            simp [h58]),
          if_pos (show (58 : Nat) = 58 from rfl),
          ← ht, ih (acc ++ [b]) (fun x hx => hbs x (by simp [hx]))]
        by_cases hcond : acc.length + r2.length + 2 = 20
        · rw [if_pos (by simp; omega), if_pos (by simp; omega)]
          simp
        · rw [if_neg (by simp; omega), if_neg (by simp; omega)]

theorem fingerprintLoop_badchar : ∀ (n : Nat) (l acc : List Nat),
    l.length = n →
    (∃ c ∈ l.takeWhile (· ≠ 32), hexdigitp c = false ∧ c ≠ 58) →
    fingerprintLoop l acc = none := by
  intro n
  induction n using Nat.strong_induction_on with
  | _ n ih =>
    intro l acc hlen hbad
    rcases l with _ | ⟨c, _ | ⟨d, r2⟩⟩
    · simp at hbad
    · obtain ⟨x, hx, hxhex, hxcolon⟩ := hbad
      by_cases hc32 : c = 32
      · subst hc32; simp at hx
      · rw [List.takeWhile_cons, if_pos (by simpa using hc32)] at hx
        have hxc : x = c := by simpa using hx
        subst hxc
        rw [fingerprintLoop, if_neg hc32, if_neg hxcolon]
    · obtain ⟨x, hx, hxhex, hxcolon⟩ := hbad
      by_cases hc32 : c = 32
      · subst hc32; simp at hx
      · rw [List.takeWhile_cons, if_pos (by simpa using hc32)] at hx
        rw [fingerprintLoop, if_neg hc32]
        by_cases hpair : (hexdigitp c && hexdigitp d) = true
        · rw [if_pos hpair]
          obtain ⟨hchex, hdhex⟩ : hexdigitp c = true ∧ hexdigitp d = true := by
            simpa using hpair
          have hxne_c : x ≠ c := fun h => by rw [h] at hxhex; simp [hchex] at hxhex
          have hd32 : d ≠ 32 := hexdigit_ne_space hdhex
          rw [List.mem_cons] at hx
          rcases hx with h | hx
          · exact absurd h hxne_c
          rw [List.takeWhile_cons, if_pos (by simpa using hd32)] at hx
          rw [List.mem_cons] at hx
          rcases hx with h | hx
          · exact absurd (h ▸ hxhex) (by simp [hdhex])
          by_cases hacc : acc.length ≥ 20
          · rw [if_pos hacc]
          · rw [if_neg hacc]
            exact ih r2.length (by simp at hlen; omega) r2 _ rfl
              ⟨x, hx, hxhex, hxcolon⟩
        · rw [if_neg hpair]
          by_cases hc58 : c = 58
          · rw [if_pos hc58]
            rw [List.mem_cons] at hx
            rcases hx with h | hx
            · exact absurd (h.trans hc58) hxcolon
            exact ih (d :: r2).length (by simp at hlen ⊢; omega) (d :: r2) acc rfl
              ⟨x, hx, hxhex, hxcolon⟩
          · rw [if_neg hc58]

/-- A successfully parsed fingerprint has exactly 20 bytes. -/
theorem fingerprintLoop_some_length : ∀ (n : Nat) (l acc bs : List Nat),
    l.length = n → fingerprintLoop l acc = some bs → bs.length = 20 := by
  intro n
  induction n using Nat.strong_induction_on with
  | _ n ih =>
    intro l acc bs hlen hsome
    rcases l with _ | ⟨c, _ | ⟨d, r2⟩⟩
    · rw [fingerprintLoop] at hsome
      split at hsome
      next h20 => exact (Option.some.inj hsome) ▸ h20
      next => exact absurd hsome (by simp)
    · rw [fingerprintLoop] at hsome
      split at hsome
      · split at hsome
        next h20 => exact (Option.some.inj hsome) ▸ h20
        next => exact absurd hsome (by simp)
      · split at hsome
        · split at hsome
          next h20 => exact (Option.some.inj hsome) ▸ h20
          next => exact absurd hsome (by simp)
        · exact absurd hsome (by simp)
    · rw [fingerprintLoop] at hsome
      split at hsome
      · split at hsome
        next h20 => exact (Option.some.inj hsome) ▸ h20
        next => exact absurd hsome (by simp)
      · split at hsome
        · split at hsome
          · exact absurd hsome (by simp)
          · exact ih r2.length (by simp at hlen; omega) r2 _ bs rfl hsome
        · split at hsome
          · exact ih (d :: r2).length (by simp at hlen ⊢; omega) (d :: r2) acc bs
              rfl hsome
          · exact absurd hsome (by simp)

/-! ### The claims -/

/-- C5: for every input string, the escape decoder's output is never
longer than the input; a `+` decodes to a blank, `%` followed by two
characters decodes the pair as one hex byte, and a malformed `%` escape
with fewer than two following characters is copied through literally
(`"%4"` decodes to `"%4"`), so decoding — a total function — never fails.
The concrete conjuncts are `"a+b"` → `"a b"`, `"%41%42"` → `"AB"`, and
`"%4"` → `"%4"` in byte values. -/
theorem escape_decoder_never_expands_and_is_lenient :
    (∀ s : List Nat, (strcpy_escaped_plus s).length ≤ s.length)
    ∧ (∀ r : List Nat, strcpy_escaped_plus (43 :: r) = 32 :: strcpy_escaped_plus r)
    ∧ (∀ (a b : Nat) (r : List Nat),
        strcpy_escaped_plus (37 :: a :: b :: r) = xtoi_2 a b :: strcpy_escaped_plus r)
    ∧ strcpy_escaped_plus [97, 43, 98] = [97, 32, 98]
    ∧ strcpy_escaped_plus [37, 52, 49, 37, 52, 50] = [65, 66]
    ∧ strcpy_escaped_plus [37, 52] = [37, 52] := by
  refine ⟨?_, fun r => rfl, fun a b r => rfl, by decide, by decide, by decide⟩
  intro s
  induction s using strcpy_escaped_plus.induct <;>
    simp [strcpy_escaped_plus] <;> omega

/-- C6: the fingerprint parser accepts the colon-separated and the
unseparated rendering of any 20 bytes (also with trailing
blank-separated content) and decodes both to those same 20 bytes; any
non-hex non-colon character before the first blank yields `none`; 19 or
21 rendered bytes both yield `none`; and every successful parse returns
exactly 20 bytes. -/
theorem fingerprint_parser_spec :
    (∀ bs : List Nat, bs.length = 20 → (∀ b ∈ bs, b < 256) →
        get_fingerprint_from_line (renderHex bs) = some bs
        ∧ get_fingerprint_from_line (renderHexColon bs) = some bs
        ∧ ∀ junk, get_fingerprint_from_line (renderHex bs ++ 32 :: junk) = some bs)
    ∧ (∀ line : List Nat,
        (∃ c ∈ line.takeWhile (· ≠ 32), hexdigitp c = false ∧ c ≠ 58) →
        get_fingerprint_from_line line = none)
    ∧ (∀ bs : List Nat, bs.length = 19 ∨ bs.length = 21 → (∀ b ∈ bs, b < 256) →
        get_fingerprint_from_line (renderHex bs) = none
        ∧ get_fingerprint_from_line (renderHexColon bs) = none)
    ∧ (∀ line bs : List Nat,
        get_fingerprint_from_line line = some bs → bs.length = 20) := by
  refine ⟨?_, ?_, ?_, ?_⟩
  · intro bs hlen hrange
    refine ⟨?_, ?_, ?_⟩
    · have h := fingerprintLoop_renderHex bs [] (Or.inl rfl) [] hrange
      simpa [get_fingerprint_from_line, hlen] using h
    · have h := fingerprintLoop_renderHexColon bs [] hrange
      simpa [get_fingerprint_from_line, hlen] using h
    · intro junk
      have h := fingerprintLoop_renderHex bs (32 :: junk) (Or.inr ⟨junk, rfl⟩) [] hrange
      simpa [get_fingerprint_from_line, hlen] using h
  · intro line hbad
    exact fingerprintLoop_badchar line.length line [] rfl hbad
  · intro bs hlen hrange
    constructor
    · have h := fingerprintLoop_renderHex bs [] (Or.inl rfl) [] hrange
      simp only [List.append_nil] at h
      rw [get_fingerprint_from_line, h, if_neg (by simp; omega)]
    · have h := fingerprintLoop_renderHexColon bs [] hrange
      rw [get_fingerprint_from_line, h, if_neg (by simp; omega)]
  · intro line bs h
    exact fingerprintLoop_some_length line.length line [] bs rfl h

/-- C6 witness: the unseparated rendering of the concrete 20 bytes
`0, 1, ..., 19` parses back to exactly those bytes. -/
theorem fingerprint_parser_spec_witness :
    get_fingerprint_from_line (renderHex (List.range 20)) = some (List.range 20) :=
  (fingerprint_parser_spec.1 (List.range 20) (by decide) (by decide)).1

/-- C2 counterexample: the claim requires a dot-free argument that is not
40 *hex* characters to be a parameter error, but `cmd_isvalid` never
checks hex-ness — forty `'z'` characters (byte 122, not a hex digit,
no `'.'`) are routed to the OCSP path. -/
theorem isvalid_routing_counterexample :
    ¬ (∀ line : List Nat, ¬46 ∈ line →
        ¬((line.takeWhile (· ≠ 32)).length = 40
          ∧ ∀ c ∈ line.takeWhile (· ≠ 32), hexdigitp c = true) →
        isvalidRoute line = Route.paramError) := by
  intro h
  have h2 := h (List.replicate 40 122) (by decide) (by decide)
  exact absurd h2 (by decide)

/-- C2 amended: a `.` anywhere in the argument takes the CRL path
regardless of length; with no `.`, the OCSP path is taken exactly when
the part before the first blank is 40 characters long (hex-ness is not
checked); every other shape returns the parameter error without
consulting any collaborator (empty event trace). -/
theorem isvalid_routing_amended :
    ∀ (env : IsvalidEnv) (o f : Bool) (line : List Nat),
    (46 ∈ line → ∃ ih sn, isvalidRoute line = Route.crl ih sn)
    ∧ (¬46 ∈ line →
        ((∃ ih, isvalidRoute line = Route.ocsp ih) ↔
          (line.takeWhile (· ≠ 32)).length = 40))
    ∧ (isvalidRoute line = Route.paramError →
        cmd_isvalid env o f line = (GpgErr.assParameter, [])) := by
  intro env o f line
  refine ⟨?_, ?_, ?_⟩
  · intro hdot
    exact ⟨_, _, by rw [isvalidRoute, if_pos hdot]⟩
  · intro hdot
    rw [isvalidRoute, if_neg hdot]
    constructor
    · intro ⟨ih, hih⟩
      by_contra h40
      rw [if_neg h40] at hih
      exact Route.noConfusion hih
    · intro h40
      exact ⟨_, by rw [if_pos h40]⟩
  · intro hroute
    rw [cmd_isvalid, hroute]

/-- C2 witness for the amended claim: `"a.b"` routes to the CRL path and
the dot-free 39-character argument is a parameter error with no
collaborator consulted. -/
theorem isvalid_routing_amended_witness :
    (∃ ih sn, isvalidRoute [97, 46, 98] = Route.crl ih sn)
    ∧ cmd_isvalid
        ⟨true, GpgErr.noError, fun _ => CrlAns.dontknow, Except.ok [1],
          fun _ => GpgErr.noError, GpgErr.noError⟩ false false
        (List.replicate 39 122) = (GpgErr.assParameter, []) :=
  ⟨(isvalid_routing_amended
      ⟨true, GpgErr.noError, fun _ => CrlAns.dontknow, Except.ok [1],
        fun _ => GpgErr.noError, GpgErr.noError⟩ false false [97, 46, 98]).1
      (by decide),
    (isvalid_routing_amended
      ⟨true, GpgErr.noError, fun _ => CrlAns.dontknow, Except.ok [1],
        fun _ => GpgErr.noError, GpgErr.noError⟩ false false
      (List.replicate 39 122)).2.2 (by decide)⟩

/-- A concrete environment: CRL cache always answers "don't know", the
`SENDCERT` inquiry succeeds with a one-byte payload, certificate
construction and CRL reload succeed. -/
def envDK : IsvalidEnv :=
  ⟨true, GpgErr.noError, fun _ => CrlAns.dontknow, Except.ok [1],
    fun _ => GpgErr.noError, GpgErr.noError⟩

/-- `inquire_cert_and_load_crl` issues exactly the single `SENDCERT`
inquiry, whatever its outcome. -/
theorem inquire_cert_and_load_crl_events (env : IsvalidEnv) :
    (inquire_cert_and_load_crl env).2 = [Event.inquire Keyword.sendcert] := by
  rw [inquire_cert_and_load_crl]
  cases env.sendCert with
  | error e => rfl
  | ok v =>
    by_cases h0 : v.length = 0
    · simp [h0]
    · by_cases hc : env.certInit v = GpgErr.noError <;> simp [h0, hc]

/-- Count of events that are CRL-cache lookups. -/
def countCacheLookups (evs : List Event) : Nat :=
  evs.countP fun e => match e with | Event.cacheLookup _ => true | _ => false

/-- Count of events that are `SENDCERT` inquiries. -/
def countSendcert (evs : List Event) : Nat :=
  evs.countP fun e => match e with
    | Event.inquire Keyword.sendcert => true
    | _ => false

/-- C1: on the CRL path of ISVALID, at most one `SENDCERT` inquiry is ever
issued; a first-attempt "don't know" triggers exactly one `SENDCERT`
inquiry, and — when the inquire-and-load step succeeds — exactly one
retry of the cache lookup (two lookups in total); a retried "don't know"
or "can't use" yields `GPG_ERR_NO_CRL_KNOWN` with still only the one
inquiry. -/
theorem isvalid_retry_discipline :
    ∀ (env : IsvalidEnv) (f : Bool) (line ih sn : List Nat),
    isvalidRoute line = Route.crl ih sn →
    (countSendcert (cmd_isvalid env false f line).2 ≤ 1)
    ∧ (env.cacheAns 0 = CrlAns.dontknow →
        countSendcert (cmd_isvalid env false f line).2 = 1
        ∧ ((inquire_cert_and_load_crl env).1 = GpgErr.noError →
            countCacheLookups (cmd_isvalid env false f line).2 = 2
            ∧ ((env.cacheAns 1 = CrlAns.dontknow ∨ env.cacheAns 1 = CrlAns.cantuse) →
                (cmd_isvalid env false f line).1 = GpgErr.noCrlKnown))) := by
  intro env f line ih sn hroute
  have hev := inquire_cert_and_load_crl_events env
  rw [cmd_isvalid, hroute]
  simp only [Bool.false_eq_true, if_false]
  rw [isvalidCrlLoop.eq_def]
  cases h0 : env.cacheAns 0 with
  | valid => simp [h0, countSendcert]
  | invalid => simp [h0, countSendcert]
  | cantuse => simp [h0, countSendcert]
  | dontknow =>
    simp only [h0]
    by_cases hinq : (inquire_cert_and_load_crl env).1 = GpgErr.noError
    · rw [if_pos hinq, isvalidCrlLoop.eq_def]
      cases h1 : env.cacheAns 1 with
      | valid => simp [h1, hev, countSendcert, countCacheLookups]
      | invalid => simp [h1, hev, countSendcert, countCacheLookups]
      | cantuse => simp [h1, hev, countSendcert, countCacheLookups]
      | dontknow => simp [h1, hev, countSendcert, countCacheLookups]
    · rw [if_neg hinq]
      exact ⟨by simp [countSendcert, hev],
        fun _ => ⟨by simp [countSendcert, hev], fun h => absurd h hinq⟩⟩

/-- C1 witness: with a cache that always answers "don't know" and a
successful inquire-and-load, the command issues one inquiry, performs two
lookups, and returns `GPG_ERR_NO_CRL_KNOWN`. -/
theorem isvalid_retry_discipline_witness :
    countSendcert (cmd_isvalid envDK false false [97, 46, 98]).2 = 1
    ∧ countCacheLookups (cmd_isvalid envDK false false [97, 46, 98]).2 = 2
    ∧ (cmd_isvalid envDK false false [97, 46, 98]).1 = GpgErr.noCrlKnown := by
  have h := (isvalid_retry_discipline envDK false [97, 46, 98] [97] [98]
    (by decide)).2 rfl
  exact ⟨h.1, (h.2 rfl).1, (h.2 rfl).2 (Or.inl rfl)⟩

/-- C10: ISVALID with `--only-ocsp` and a `.`-containing argument (the CRL
form) returns `GPG_ERR_NO_CRL_KNOWN` with an empty event trace: no CRL
cache lookup, no OCSP check, no inquiry. -/
theorem isvalid_only_ocsp_crl_form :
    ∀ (env : IsvalidEnv) (f : Bool) (line ih sn : List Nat),
    isvalidRoute line = Route.crl ih sn →
    cmd_isvalid env true f line = (GpgErr.noCrlKnown, []) := by
  intro env f line ih sn hroute
  rw [cmd_isvalid, hroute]
  rfl

/-- C10 witness at the concrete argument `"a.b"`. -/
theorem isvalid_only_ocsp_crl_form_witness :
    cmd_isvalid envDK true false [97, 46, 98] = (GpgErr.noCrlKnown, []) :=
  isvalid_only_ocsp_crl_form envDK false [97, 46, 98] [97] [98] (by decide)

/-- C4: in every command that inquires certificate material — CHECKCRL,
CHECKOCSP and CACHECERT/VALIDATE via `TARGETCERT`, VALIDATE via
`CERTLIST`, and ISVALID's `SENDCERT` retry — a successful inquiry with an
empty payload makes the command return `GPG_ERR_MISSING_CERT`, which is
distinct from `GPG_ERR_NO_DATA` and from `GPG_ERR_NOT_TRUSTED`, while a
transport-level inquiry failure propagates that transport error. -/
theorem empty_inquiry_yields_missing_cert :
    (∀ (env : CertCmdEnv) (line : List Nat),
        get_fingerprint_from_line line = none →
        env.inquireCert Keyword.targetcert = Except.ok [] →
        (cmd_checkcrl env line).1 = GpgErr.missingCert)
    ∧ (∀ (env : CertCmdEnv) (line : List Nat) (e : GpgErr),
        get_fingerprint_from_line line = none →
        env.inquireCert Keyword.targetcert = Except.error e →
        (cmd_checkcrl env line).1 = e)
    ∧ (∀ (env : CertCmdEnv) (fdr : Bool) (line : List Nat),
        get_fingerprint_from_line line = none →
        env.inquireCert Keyword.targetcert = Except.ok [] →
        (cmd_checkocsp env fdr line).1 = GpgErr.missingCert)
    ∧ (∀ (env : CertCmdEnv) (fdr : Bool) (line : List Nat) (e : GpgErr),
        get_fingerprint_from_line line = none →
        env.inquireCert Keyword.targetcert = Except.error e →
        (cmd_checkocsp env fdr line).1 = e)
    ∧ (∀ env : CertCmdEnv,
        env.inquireCert Keyword.targetcert = Except.ok [] →
        (cmd_cachecert env).1 = GpgErr.missingCert)
    ∧ (∀ (env : CertCmdEnv) (e : GpgErr),
        env.inquireCert Keyword.targetcert = Except.error e →
        (cmd_cachecert env).1 = e)
    ∧ (∀ (env : CertCmdEnv) (s n : Bool),
        env.inquireCert Keyword.targetcert = Except.ok [] →
        (cmd_validate env s false n).1 = GpgErr.missingCert)
    ∧ (∀ (env : CertCmdEnv) (s n : Bool),
        env.inquireCert Keyword.certlist = Except.ok [] →
        (cmd_validate env s true n).1 = GpgErr.missingCert)
    ∧ (∀ (env : CertCmdEnv) (s t n : Bool) (e : GpgErr),
        env.inquireCert (if t then Keyword.certlist else Keyword.targetcert)
          = Except.error e →
        (cmd_validate env s t n).1 = e)
    ∧ (∀ (env : IsvalidEnv) (f : Bool) (line ihash sn : List Nat),
        isvalidRoute line = Route.crl ihash sn →
        env.cacheAns 0 = CrlAns.dontknow →
        env.sendCert = Except.ok [] →
        (cmd_isvalid env false f line).1 = GpgErr.missingCert)
    ∧ (∀ (env : IsvalidEnv) (f : Bool) (line ihash sn : List Nat) (e : GpgErr),
        isvalidRoute line = Route.crl ihash sn →
        env.cacheAns 0 = CrlAns.dontknow →
        env.sendCert = Except.error e →
        e ≠ GpgErr.noError →
        (cmd_isvalid env false f line).1 = e)
    ∧ (GpgErr.missingCert ≠ GpgErr.noData
        ∧ GpgErr.missingCert ≠ GpgErr.notTrusted) := by
  refine ⟨?_, ?_, ?_, ?_, ?_, ?_, ?_, ?_, ?_, ?_, ?_, by decide, by decide⟩
  · intro env line hfpr hinq
    rw [cmd_checkcrl, resolveTargetCert, hfpr, hinq]
    rfl
  · intro env line e hfpr hinq
    rw [cmd_checkcrl, resolveTargetCert, hfpr, hinq]
  · intro env fdr line hfpr hinq
    rw [cmd_checkocsp, resolveTargetCert, hfpr, hinq]
    rfl
  · intro env fdr line e hfpr hinq
    rw [cmd_checkocsp, resolveTargetCert, hfpr, hinq]
  · intro env hinq
    rw [cmd_cachecert, hinq]
    rfl
  · intro env e hinq
    rw [cmd_cachecert, hinq]
  · intro env s n hinq
    rw [cmd_validate]
    simp only [Bool.false_eq_true, if_false, hinq]
    rfl
  · intro env s n hinq
    rw [cmd_validate]
    simp only [if_true, hinq]
    rfl
  · intro env s t n e hinq
    rw [cmd_validate]
    cases t <;> simp_all
  · intro env f line ihash sn hroute h0 hsend
    rw [cmd_isvalid, hroute]
    simp only [Bool.false_eq_true, if_false]
    rw [isvalidCrlLoop.eq_def]
    simp only [h0]
    rw [if_neg (by rw [inquire_cert_and_load_crl, hsend]; simp)]
    rw [inquire_cert_and_load_crl, hsend]
    rfl
  · intro env f line ihash sn e hroute h0 hsend hne
    rw [cmd_isvalid, hroute]
    simp only [Bool.false_eq_true, if_false]
    rw [isvalidCrlLoop.eq_def]
    simp only [h0]
    rw [if_neg (by rw [inquire_cert_and_load_crl, hsend]; simpa using hne)]
    rw [inquire_cert_and_load_crl, hsend]

/-- A concrete environment for the certificate commands: fingerprint cache
always misses and every inquiry returns an empty payload. -/
def certEnvEmpty : CertCmdEnv :=
  ⟨fun _ => none, fun _ => Except.ok [], fun _ => GpgErr.noError,
    fun _ => GpgErr.noError, GpgErr.noError, GpgErr.noError, true,
    GpgErr.noError, fun _ => Except.ok [], GpgErr.noError⟩

/-- C4 witness: with an empty `TARGETCERT` payload, CACHECERT returns the
missing-certificate error, and so does CHECKCRL on an empty line. -/
theorem empty_inquiry_yields_missing_cert_witness :
    (cmd_cachecert certEnvEmpty).1 = GpgErr.missingCert
    ∧ (cmd_checkcrl certEnvEmpty []).1 = GpgErr.missingCert :=
  ⟨empty_inquiry_yields_missing_cert.2.2.2.2.1 certEnvEmpty rfl,
    empty_inquiry_yields_missing_cert.1 certEnvEmpty [] (by decide) rfl⟩

/-- C8 counterexample: the claim says any response body starting with
`'1'` is trusted, but the body `"1x"` (bytes `49, 120`) starts with `'1'`
and is rejected — the code additionally requires the body to be exactly
`"1"` or `'1'` followed by a blank or tab. -/
theorem istrusted_counterexample :
    ¬ (∀ v : List Nat, v.head? = some 49 →
        get_istrusted_from_client (Except.ok v) = GpgErr.noError) := by
  intro h
  exact absurd (h [49, 120] rfl) (by decide)

/-- C8 amended: a successfully transported `ISTRUSTED` response is
trusted exactly when it is `"1"` alone or `'1'` followed by a blank or a
tab; every other body yields `GPG_ERR_NOT_TRUSTED` (and nothing else). -/
theorem istrusted_amended :
    ∀ v : List Nat,
    (get_istrusted_from_client (Except.ok v) = GpgErr.noError ↔
      (v = [49] ∨ ∃ d rest, v = 49 :: d :: rest ∧ spacep d = true))
    ∧ (get_istrusted_from_client (Except.ok v) = GpgErr.noError
        ∨ get_istrusted_from_client (Except.ok v) = GpgErr.notTrusted) := by
  intro v
  rcases v with _ | ⟨c, _ | ⟨d, rest⟩⟩
  · exact ⟨by simp [get_istrusted_from_client, istrustedDecide], Or.inr rfl⟩
  · by_cases hc : c = 49
    · subst hc
      exact ⟨by simp [get_istrusted_from_client, istrustedDecide], Or.inl rfl⟩
    · refine ⟨⟨fun h => ?_, fun h => ?_⟩, Or.inr ?_⟩
      · rw [get_istrusted_from_client, istrustedDecide.eq_def] at h
        split at h
        · next heq => exact absurd (by injection heq) hc
        · next heq => exact absurd heq (by rintro ⟨⟩)
        · exact absurd h (by decide)
      · rcases h with h | ⟨d, rest, h, _⟩
        · exact absurd (by injection h) hc
        · exact absurd h (by rintro ⟨⟩)
      · rw [get_istrusted_from_client, istrustedDecide.eq_def]
        split
        · next heq => exact absurd (by injection heq) hc
        · next heq => exact absurd heq (by rintro ⟨⟩)
        · rfl
  · by_cases hc : c = 49
    · subst hc
      by_cases hd : spacep d = true
      · refine ⟨⟨fun _ => Or.inr ⟨d, rest, rfl, hd⟩, fun _ => ?_⟩, Or.inl ?_⟩
        · rw [get_istrusted_from_client, istrustedDecide, if_pos hd]
        · rw [get_istrusted_from_client, istrustedDecide, if_pos hd]
      · refine ⟨⟨fun h => ?_, fun h => ?_⟩, Or.inr ?_⟩
        · rw [get_istrusted_from_client, istrustedDecide, if_neg hd] at h
          exact absurd h (by decide)
        · rcases h with h | ⟨d2, rest2, h, hsp⟩
          · exact absurd h (by simp)
          · obtain ⟨hd2, hrest⟩ : d = d2 ∧ rest = rest2 := by
              injection h with h1 h2
              injection h2 with h3 h4
              exact ⟨h3, h4⟩
            exact absurd (hd2 ▸ hsp) hd
        · rw [get_istrusted_from_client, istrustedDecide, if_neg hd]
    · refine ⟨⟨fun h => ?_, fun h => ?_⟩, Or.inr ?_⟩
      · rw [get_istrusted_from_client, istrustedDecide.eq_def] at h
        split at h
        · next heq => exact absurd (by injection heq) (by simp)
        · next heq =>
            obtain ⟨h1, -⟩ : c = 49 ∧ True := by
              injection heq with h1 h2
              exact ⟨h1, trivial⟩
            exact absurd h1 hc
        · exact absurd h (by decide)
      · rcases h with h | ⟨d2, rest2, h, _⟩
        · exact absurd h (by simp)
        · exact absurd (by injection h) hc
      · rw [get_istrusted_from_client, istrustedDecide.eq_def]
        split
        · next heq => exact absurd (by injection heq) (by simp)
        · next heq =>
            obtain ⟨h1, -⟩ : c = 49 ∧ True := by
              injection heq with h1 h2
              exact ⟨h1, trivial⟩
            exact absurd h1 hc
        · rfl

/-- When every configured URI parses, the seeding loop pushes each one to
the head, producing the reversed configuration in front of `acc`. -/
theorem seedLoop_all_ok (env : KsEnv) :
    ∀ (l acc : List (List Nat)), (∀ u ∈ l, env.parseUri u = true) →
    seedLoop env l acc = (GpgErr.noError, l.reverse ++ acc) := by
  intro l
  induction l with
  | nil => intro acc _; simp [seedLoop]
  | cons ks rest ih =>
    intro acc hok
    rw [seedLoop, make_keyserver_item, if_pos (hok ks (by simp))]
    show seedLoop env rest (ks :: acc) = _
    rw [ih (ks :: acc) (fun u hu => hok u (by simp [hu]))]
    simp

/-- A concrete keyserver environment: every URI parses, two configured
global keyservers `"a"` and `"b"` (in that order), inquiries succeed with
a one-byte payload. -/
def ksEnvAB : KsEnv :=
  ⟨fun _ => true, [[97], [98]], Except.ok [1], Except.ok [1], GpgErr.noError⟩

/-- C3 counterexample: with global configuration `["a", "b"]` the seeded
session registry iterates front-to-back as `["b", "a"]` — the *reverse*
of configuration order, refuting the claim that front-to-back iteration
yields the configured URIs in the order they were configured. -/
theorem ensure_keyserver_counterexample :
    ensure_keyserver ksEnvAB [] = (GpgErr.noError, [[98], [97]])
    ∧ ksEnvAB.globalKs = [[97], [98]]
    ∧ ([[98], [97]] : List (List Nat)) ≠ [[97], [98]] := by decide

/-- C3 amended: a non-empty session registry is left unchanged; an empty
registry with no global configuration is seeded with the single default
URI; an empty registry with a (fully parsable) global configuration is
seeded with the configured URIs in *reverse* configuration order. -/
theorem ensure_keyserver_amended :
    ∀ (env : KsEnv) (sess : List (List Nat)),
    (sess ≠ [] → ensure_keyserver env sess = (GpgErr.noError, sess))
    ∧ (sess = [] → env.globalKs = [] →
        env.parseUri DIRMNGR_DEFAULT_KEYSERVER = true →
        ensure_keyserver env sess = (GpgErr.noError, [DIRMNGR_DEFAULT_KEYSERVER]))
    ∧ (sess = [] → env.globalKs ≠ [] →
        (∀ u ∈ env.globalKs, env.parseUri u = true) →
        ensure_keyserver env sess = (GpgErr.noError, env.globalKs.reverse)) := by
  intro env sess
  refine ⟨?_, ?_, ?_⟩
  · intro hne
    rw [ensure_keyserver, if_pos hne]
  · intro hsess hglob hparse
    subst hsess
    rw [ensure_keyserver, if_neg (by simp), if_pos hglob, make_keyserver_item,
      if_pos hparse]
  · intro hsess hglob hparse
    subst hsess
    rw [ensure_keyserver, if_neg (by simp), if_neg hglob,
      seedLoop_all_ok env env.globalKs [] hparse]
    simp

/-- C3 witness for the amended claim: a non-empty registry survives, and
the two-entry configuration seeds in reverse order. -/
theorem ensure_keyserver_amended_witness :
    ensure_keyserver ksEnvAB [[99]] = (GpgErr.noError, [[99]])
    ∧ ensure_keyserver ksEnvAB [] = (GpgErr.noError, [[98], [97]]) :=
  ⟨(ensure_keyserver_amended ksEnvAB [[99]]).1 (by decide),
    (ensure_keyserver_amended ksEnvAB []).2.2 rfl (by decide) (by decide)⟩

/-- C7: a KEYSERVER add whose URI fails to parse leaves the session
registry exactly as it was — even when `--clear` was also given, no clear
happens — and returns the parse error (the parameter-class
`GPG_ERR_BAD_URI`); a parsable add together with `--clear` yields a
registry holding exactly that one URI. -/
theorem keyserver_add_discipline :
    ∀ (env : KsEnv) (clearFlag : Bool) (line : List Nat)
      (sess : List (List Nat)),
    (line ≠ [] → env.parseUri line = false →
      cmd_keyserver env clearFlag line sess = (GpgErr.badUri, sess))
    ∧ (line ≠ [] → env.parseUri line = true →
        cmd_keyserver env true line sess = (GpgErr.noError, [line])) := by
  intro env clearFlag line sess
  constructor
  · intro hne hparse
    rw [cmd_keyserver, if_pos hne, make_keyserver_item,
      if_neg (by simp [hparse])]
  · intro hne hparse
    rw [cmd_keyserver, if_pos hne, make_keyserver_item, if_pos (by simp [hparse])]
    rfl

/-- C7 witness: an unparsable URI leaves the registry `[["a"]]` untouched
even with `--clear`, and a parsable add with `--clear` yields exactly the
added URI. -/
theorem keyserver_add_discipline_witness :
    cmd_keyserver ⟨fun _ => false, [], Except.ok [1], Except.ok [1],
        GpgErr.noError⟩ true [120] [[97]] = (GpgErr.badUri, [[97]])
    ∧ cmd_keyserver ksEnvAB true [120] [[97]] = (GpgErr.noError, [[120]]) :=
  ⟨(keyserver_add_discipline ⟨fun _ => false, [], Except.ok [1], Except.ok [1],
      GpgErr.noError⟩ true [120] [[97]]).1 (by decide) rfl,
    (keyserver_add_discipline ksEnvAB true [120] [[97]]).2 (by decide) rfl⟩

/-- C9: during KS_PUT, a successful `KEYBLOCK` inquiry with an empty
payload makes the command fail with `GPG_ERR_MISSING_CERT` before the
`KEYBLOCK_INFO` inquiry is issued: the trace holds the `KEYBLOCK` inquiry
only — no `KEYBLOCK_INFO` inquiry and no keyserver send ever occur. -/
theorem ks_put_empty_keyblock :
    ∀ (env : KsEnv) (sess : List (List Nat)),
    (ensure_keyserver env sess).1 = GpgErr.noError →
    env.keyblock = Except.ok [] →
    cmd_ks_put env sess = (GpgErr.missingCert, [Event.inquire Keyword.keyblock])
    ∧ (cmd_ks_put env sess).2.count (Event.inquire Keyword.keyblockInfo) = 0
    ∧ (cmd_ks_put env sess).2.count Event.ksPut = 0 := by
  intro env sess hens hkb
  have hput : cmd_ks_put env sess
      = (GpgErr.missingCert, [Event.inquire Keyword.keyblock]) := by
    rw [cmd_ks_put, if_neg (by simp [hens]), hkb]
    rfl
  exact ⟨hput, by rw [hput]; rfl, by rw [hput]; rfl⟩

/-- C9 witness at a concrete environment whose `KEYBLOCK` inquiry returns
an empty payload. -/
theorem ks_put_empty_keyblock_witness :
    cmd_ks_put ⟨fun _ => true, [[97]], Except.ok [], Except.ok [1],
        GpgErr.noError⟩ [[99]]
      = (GpgErr.missingCert, [Event.inquire Keyword.keyblock]) :=
  (ks_put_empty_keyblock ⟨fun _ => true, [[97]], Except.ok [], Except.ok [1],
      GpgErr.noError⟩ [[99]] rfl rfl).1

end Dirmngr
